import Mathlib

/-!
Verification of the wishlist store in `app.py`.

The program keeps a single JSON file holding an array of item objects.
Every route reloads the file (`load_data`), possibly mutates the list and
rewrites the file (`save_data`), then returns a redirect.  We embed:

* a stored JSON object as `Item`, where every key is an `Option` because
  the display code reads keys with `dict.get` and a default — a stored
  object may lack any key.  A `none` in the `image` field covers both an
  absent `"image"` key and an explicit JSON `null` (Python's `item.get("image")`
  returns `None` in both cases, and `add` stores `None` for an empty URL);
* the backing file as `Option (List Item)` — `none` is an absent file;
* each Flask route as a pure function from the file state (plus the
  request's form fields / URL index) to the new file state paired with the
  name of the endpoint it redirects to.
-/

/-- One stored wishlist object.  Each field models one JSON key; `none`
means the key is absent (for `image`: absent or JSON `null`). -/
structure Item where
  name : Option String := none
  brand : Option String := none
  link : Option String := none
  notes : Option String := none
  image : Option String := none
  purchased : Option Bool := none
  created_at : Option String := none
deriving Repr, DecidableEq

/-- `load_data` (app.py lines 14–23): if the file exists, parse and return
its array; otherwise return the empty list. -/
def load_data (file : Option (List Item)) : List Item :=
  match file with
  | some data => data
  | none => []

/-- `save_data` (app.py lines 26–31): open the file in mode `"w"` —
truncating whatever was there — and write the full list.  The previous
file state is a parameter only to show the overwrite ignores it. -/
def save_data (data : List Item) (_file : Option (List Item)) : Option (List Item) :=
  some data

/-- Python's `str.strip()` with no argument: drop leading and trailing
whitespace (written structurally so it reduces). -/
def pyStrip (s : String) : String :=
  ⟨((s.data.dropWhile Char.isWhitespace).reverse.dropWhile Char.isWhitespace).reverse⟩

/-- The item record built by the POST branch of `wishlist`
(app.py lines 68–84): `image_url` is stripped, and an empty result is
stored as `null` (`image = image_url or None` — the empty string is
falsy); `purchased` starts `False` and `created_at` records the current
time. -/
def newItem (name link notes image_url now : String) : Item :=
  { name := some name
    link := some link
    notes := some notes
    image := if pyStrip image_url = "" then none else some (pyStrip image_url)
    purchased := some false
    created_at := some now }

/-- The POST branch of route `/` (app.py lines 66–87): load, append the
new item, save, redirect to `wishlist`. -/
def wishlist_post (name link notes image_url now : String)
    (file : Option (List Item)) : Option (List Item) × String :=
  let data := load_data file
  (save_data (data ++ [newItem name link notes image_url now]) file, "wishlist")

/-- Route `/delete/<int:index>` (app.py lines 106–116): pop the element at
`index` and save when `0 ≤ index < len(data)` (the Flask `int` converter
makes `index` a natural number), otherwise touch nothing; always redirect
to `wishlist`. -/
def delete_item (index : Nat) (file : Option (List Item)) : Option (List Item) × String :=
  let data := load_data file
  if index < data.length then
    (save_data (data.eraseIdx index) file, "wishlist")
  else
    (file, "wishlist")

/-- Route `/reserve/<int:index>` (app.py lines 159–170): set
`data[index]["purchased"] = True` and save when the index is in range,
otherwise touch nothing; always redirect to `public_view`. -/
def reserve_item (index : Nat) (file : Option (List Item)) : Option (List Item) × String :=
  let data := load_data file
  if h : index < data.length then
    (save_data (data.set index { data[index] with purchased := some true }) file, "public_view")
  else
    (file, "public_view")

/-- Route `/unreserve/<int:index>` (app.py lines 173–184): set
`data[index]["purchased"] = False` and save when the index is in range,
otherwise touch nothing; always redirect to `public_view`. -/
def unreserve_item (index : Nat) (file : Option (List Item)) : Option (List Item) × String :=
  let data := load_data file
  if h : index < data.length then
    (save_data (data.set index { data[index] with purchased := some false }) file, "public_view")
  else
    (file, "public_view")

/-- One row prepared for a template: every field defaulted, plus the
positional index (app.py lines 92–103 and 145–156). -/
structure ViewItem where
  index : Nat
  name : String
  brand : String
  link : String
  notes : String
  image : Option String
  purchased : Bool
deriving Repr, DecidableEq

/-- The display loop of the GET branch of `/` (app.py lines 92–103):
`item.get` with defaults `"-"`, `""`, `""`, `""`, `None`, `False`. -/
def wishlist_items (data : List Item) : List ViewItem :=
  data.enum.map fun p =>
    { index := p.1
      name := p.2.name.getD "-"
      brand := p.2.brand.getD ""
      link := p.2.link.getD ""
      notes := p.2.notes.getD ""
      image := p.2.image
      purchased := p.2.purchased.getD false }

/-- The display loop of `/public` (app.py lines 145–156), written out
separately because the source repeats the loop verbatim. -/
def public_view_items (data : List Item) : List ViewItem :=
  data.enum.map fun p =>
    { index := p.1
      name := p.2.name.getD "-"
      brand := p.2.brand.getD ""
      link := p.2.link.getD ""
      notes := p.2.notes.getD ""
      image := p.2.image
      purchased := p.2.purchased.getD false }

/-- Claim C1: a POST to `/` appends exactly one element to the stored
sequence; its `name`, `link` and `notes` equal the submitted fields, its
`purchased` flag is `false`, its `created_at` is the time of the add, and
loading afterwards yields the previous sequence with that element last. -/
theorem C1_add_appends (name link notes image_url now : String)
    (file : Option (List Item)) :
    load_data (wishlist_post name link notes image_url now file).1 =
      load_data file ++ [newItem name link notes image_url now] ∧
    (newItem name link notes image_url now).name = some name ∧
    (newItem name link notes image_url now).link = some link ∧
    (newItem name link notes image_url now).notes = some notes ∧
    (newItem name link notes image_url now).purchased = some false ∧
    (newItem name link notes image_url now).created_at = some now := by
  refine ⟨rfl, rfl, rfl, rfl, rfl, rfl⟩

/-- Loading right after saving returns exactly the saved list. -/
theorem load_data_save (d : List Item) (f : Option (List Item)) :
    load_data (save_data d f) = d := rfl

/-- Loading an existing file returns its parsed array. -/
theorem load_data_some (d : List Item) : load_data (some d) = d := rfl

/-- Concrete sample items for witnesses. -/
def itemA : Item := { name := some "a" }

def itemB : Item := { name := some "b" }

def itemC : Item := { name := some "c" }

/-- Claim C2: deleting at an in-range index removes exactly the element at
that index — earlier elements keep their indices, later ones shift down by
one and the length drops by one — while deleting at an out-of-range index
leaves the file untouched. -/
theorem C2_delete_semantics (file : Option (List Item)) (index : Nat) :
    (index < (load_data file).length →
      (load_data (delete_item index file).1).length = (load_data file).length - 1 ∧
      (∀ j, j < index → (load_data (delete_item index file).1)[j]? = (load_data file)[j]?) ∧
      (∀ j, index ≤ j → (load_data (delete_item index file).1)[j]? = (load_data file)[j + 1]?)) ∧
    ((load_data file).length ≤ index → delete_item index file = (file, "wishlist")) := by
  constructor
  · intro h
    have hd : load_data (delete_item index file).1 = (load_data file).eraseIdx index := by
      simp [delete_item, h, load_data_save]
    rw [hd]
    refine ⟨?_, ?_, ?_⟩
    · rw [List.length_eraseIdx]
      simp [h]
    · exact fun j hj => List.getElem?_eraseIdx_of_lt _ _ _ hj
    · exact fun j hj => List.getElem?_eraseIdx_of_ge _ _ _ hj
  · intro h
    simp [delete_item, Nat.not_lt.mpr h]

/-- Witness for C2 at concrete inputs: deleting index 1 of a three-element
list moves the third element to index 1, and deleting index 5 of a
one-element list is a no-op. -/
theorem C2_delete_semantics_witness :
    (load_data (delete_item 1 (some [itemA, itemB, itemC])).1)[1]? = some itemC ∧
    delete_item 5 (some [itemA]) = (some [itemA], "wishlist") := by
  constructor
  · have h := ((C2_delete_semantics (some [itemA, itemB, itemC]) 1).1 (by decide)).2.2 1
      (by decide)
    rw [h]
    rfl
  · exact (C2_delete_semantics (some [itemA]) 5).2 (by decide)

/-- Claim C3: reserve sets the item's `purchased` flag to `true` and
unreserve sets it to `false` exactly when the index is in range; for an
out-of-range index, delete, reserve and unreserve leave the persisted
file untouched (it is not rewritten) and still return their redirect. -/
theorem C3_index_range_behaviour (file : Option (List Item)) (index : Nat) :
    (∀ h : index < (load_data file).length,
      (load_data (reserve_item index file).1)[index]? =
        some { (load_data file)[index] with purchased := some true } ∧
      (load_data (unreserve_item index file).1)[index]? =
        some { (load_data file)[index] with purchased := some false }) ∧
    ((load_data file).length ≤ index →
      reserve_item index file = (file, "public_view") ∧
      unreserve_item index file = (file, "public_view") ∧
      delete_item index file = (file, "wishlist")) := by
  constructor
  · intro h
    constructor
    · have hr : load_data (reserve_item index file).1 =
          (load_data file).set index
            { (load_data file)[index] with purchased := some true } := by
        simp [reserve_item, h, load_data_save]
      rw [hr, List.getElem?_set_self h]
    · have hu : load_data (unreserve_item index file).1 =
          (load_data file).set index
            { (load_data file)[index] with purchased := some false } := by
        simp [unreserve_item, h, load_data_save]
      rw [hu, List.getElem?_set_self h]
  · intro h
    have h' := Nat.not_lt.mpr h
    refine ⟨?_, ?_, ?_⟩ <;> simp [reserve_item, unreserve_item, delete_item, h']

/-- Witness for C3 at concrete inputs: reserving index 0 of a one-element
list marks it purchased, and unreserving index 3 of that list is a no-op
that still redirects to the public view. -/
theorem C3_index_range_behaviour_witness :
    (load_data (reserve_item 0 (some [itemA])).1)[0]? =
      some { itemA with purchased := some true } ∧
    unreserve_item 3 (some [itemA]) = (some [itemA], "public_view") := by
  constructor
  · have h := ((C3_index_range_behaviour (some [itemA]) 0).1 (by decide)).1
    rw [h]
    rfl
  · exact ((C3_index_range_behaviour (some [itemA]) 3).2 (by decide)).2.1

/-- In range, reserve saves the list with the indexed object's `purchased`
key set to `true`. -/
theorem reserve_item_fst (file : Option (List Item)) (index : Nat)
    (h : index < (load_data file).length) :
    (reserve_item index file).1 =
      some ((load_data file).set index
        { (load_data file)[index] with purchased := some true }) := by
  simp [reserve_item, h, save_data]

/-- In range, unreserve saves the list with the indexed object's
`purchased` key set to `false`. -/
theorem unreserve_item_fst (file : Option (List Item)) (index : Nat)
    (h : index < (load_data file).length) :
    (unreserve_item index file).1 =
      some ((load_data file).set index
        { (load_data file)[index] with purchased := some false }) := by
  simp [unreserve_item, h, save_data]

/-- Claim C4: on an in-range index, reserve followed by unreserve leaves
the item with `purchased = false`; reserve is idempotent — reserving the
same index twice yields the very same file state as reserving it once,
with `purchased = true`. -/
theorem C4_reserve_unreserve_algebra (file : Option (List Item)) (index : Nat)
    (h : index < (load_data file).length) :
    (load_data (unreserve_item index (reserve_item index file).1).1)[index]? =
      some { (load_data file)[index] with purchased := some false } ∧
    (reserve_item index (reserve_item index file).1).1 = (reserve_item index file).1 ∧
    (load_data (reserve_item index file).1)[index]? =
      some { (load_data file)[index] with purchased := some true } := by
  have hr1 := reserve_item_fst file index h
  have h2 : index < (load_data (reserve_item index file).1).length := by
    rw [hr1, load_data_some, List.length_set]
    exact h
  have hx : (load_data (reserve_item index file).1)[index] =
      { (load_data file)[index] with purchased := some true } := by
    have hq : (load_data (reserve_item index file).1)[index]? =
        some { (load_data file)[index] with purchased := some true } := by
      rw [hr1, load_data_some, List.getElem?_set_self h]
    rw [List.getElem?_eq_getElem h2] at hq
    exact Option.some.inj hq
  refine ⟨?_, ?_, ?_⟩
  · have hu := unreserve_item_fst (reserve_item index file).1 index h2
    rw [hu, load_data_some, List.getElem?_set_self h2, hx]
  · have hr2 := reserve_item_fst (reserve_item index file).1 index h2
    rw [hr2, hx, hr1, load_data_some, List.set_set]
  · rw [hr1, load_data_some, List.getElem?_set_self h]

/-- Witness for C4 at a concrete input: on a one-element list,
reserve then unreserve at index 0 ends with `purchased = false`, and a
second reserve at index 0 leaves the file state unchanged. -/
theorem C4_reserve_unreserve_algebra_witness :
    (load_data (unreserve_item 0 (reserve_item 0 (some [itemA])).1).1)[0]? =
      some { itemA with purchased := some false } ∧
    (reserve_item 0 (reserve_item 0 (some [itemA])).1).1 =
      (reserve_item 0 (some [itemA])).1 := by
  have h := C4_reserve_unreserve_algebra (some [itemA]) 0 (by decide)
  constructor
  · rw [h.1]
    rfl
  · exact h.2.1

/-- Claim C5: `load_data` returns the empty sequence when the backing file
is absent, and every route run against the absent file behaves as against
an empty wishlist — same loaded contents afterwards, same redirect — and
both display loops render the empty row list. -/
theorem C5_missing_file_as_empty (name link notes image_url now : String) (index : Nat) :
    load_data none = [] ∧
    wishlist_items (load_data none) = [] ∧
    public_view_items (load_data none) = [] ∧
    load_data (wishlist_post name link notes image_url now none).1 =
      load_data (wishlist_post name link notes image_url now (some [])).1 ∧
    (wishlist_post name link notes image_url now none).2 =
      (wishlist_post name link notes image_url now (some [])).2 ∧
    load_data (delete_item index none).1 = load_data (delete_item index (some [])).1 ∧
    (delete_item index none).2 = (delete_item index (some [])).2 ∧
    load_data (reserve_item index none).1 = load_data (reserve_item index (some [])).1 ∧
    (reserve_item index none).2 = (reserve_item index (some [])).2 ∧
    load_data (unreserve_item index none).1 = load_data (unreserve_item index (some [])).1 ∧
    (unreserve_item index none).2 = (unreserve_item index (some [])).2 := by
  refine ⟨rfl, rfl, rfl, rfl, rfl, ?_, ?_, ?_, ?_, ?_, ?_⟩ <;>
    simp [delete_item, reserve_item, unreserve_item, load_data]

/-- Claim C6: from the empty store, adding name `"Book"`, link
`"http://x"`, empty notes and empty `image_url` yields one item whose
`image` is `null` (not the empty string) and `purchased` is `false`;
`reserve 0` then flips `purchased` to `true`, and `delete 0` empties the
store again. -/
theorem C6_book_example (now : String) :
    load_data (wishlist_post "Book" "http://x" "" "" now (some [])).1 =
      [{ name := some "Book", brand := none, link := some "http://x",
         notes := some "", image := none, purchased := some false,
         created_at := some now }] ∧
    load_data (reserve_item 0 (wishlist_post "Book" "http://x" "" "" now (some [])).1).1 =
      [{ name := some "Book", brand := none, link := some "http://x",
         notes := some "", image := none, purchased := some true,
         created_at := some now }] ∧
    load_data (delete_item 0
        (reserve_item 0 (wishlist_post "Book" "http://x" "" "" now (some [])).1).1).1 =
      [] := by
  refine ⟨rfl, rfl, rfl⟩

/-- Claim C7: on an in-range index, reserve and unreserve touch only the
`purchased` flag of the indexed item — the sequence length, every other
position, and the item's `name`, `link`, `notes`, `image` and
`created_at` keys are unchanged. -/
theorem C7_reserve_unreserve_frame (file : Option (List Item)) (index : Nat)
    (h : index < (load_data file).length) :
    (load_data (reserve_item index file).1).length = (load_data file).length ∧
    (load_data (unreserve_item index file).1).length = (load_data file).length ∧
    (∀ j, j ≠ index → (load_data (reserve_item index file).1)[j]? = (load_data file)[j]?) ∧
    (∀ j, j ≠ index → (load_data (unreserve_item index file).1)[j]? = (load_data file)[j]?) ∧
    (∀ h2 : index < (load_data (reserve_item index file).1).length,
      ((load_data (reserve_item index file).1)[index]).name = ((load_data file)[index]).name ∧
      ((load_data (reserve_item index file).1)[index]).link = ((load_data file)[index]).link ∧
      ((load_data (reserve_item index file).1)[index]).notes = ((load_data file)[index]).notes ∧
      ((load_data (reserve_item index file).1)[index]).image = ((load_data file)[index]).image ∧
      ((load_data (reserve_item index file).1)[index]).created_at =
        ((load_data file)[index]).created_at) ∧
    (∀ h3 : index < (load_data (unreserve_item index file).1).length,
      ((load_data (unreserve_item index file).1)[index]).name = ((load_data file)[index]).name ∧
      ((load_data (unreserve_item index file).1)[index]).link = ((load_data file)[index]).link ∧
      ((load_data (unreserve_item index file).1)[index]).notes = ((load_data file)[index]).notes ∧
      ((load_data (unreserve_item index file).1)[index]).image = ((load_data file)[index]).image ∧
      ((load_data (unreserve_item index file).1)[index]).created_at =
        ((load_data file)[index]).created_at) := by
  have hr := reserve_item_fst file index h
  have hu := unreserve_item_fst file index h
  refine ⟨?_, ?_, ?_, ?_, ?_, ?_⟩
  · rw [hr, load_data_some, List.length_set]
  · rw [hu, load_data_some, List.length_set]
  · intro j hj
    rw [hr, load_data_some, List.getElem?_set_ne (Ne.symm hj)]
  · intro j hj
    rw [hu, load_data_some, List.getElem?_set_ne (Ne.symm hj)]
  · intro h2
    have hx : (load_data (reserve_item index file).1)[index] =
        { (load_data file)[index] with purchased := some true } := by
      have hq : (load_data (reserve_item index file).1)[index]? =
          some { (load_data file)[index] with purchased := some true } := by
        rw [hr, load_data_some, List.getElem?_set_self h]
      rw [List.getElem?_eq_getElem h2] at hq
      exact Option.some.inj hq
    rw [hx]
    exact ⟨rfl, rfl, rfl, rfl, rfl⟩
  · intro h3
    have hy : (load_data (unreserve_item index file).1)[index] =
        { (load_data file)[index] with purchased := some false } := by
      have hq : (load_data (unreserve_item index file).1)[index]? =
          some { (load_data file)[index] with purchased := some false } := by
        rw [hu, load_data_some, List.getElem?_set_self h]
      rw [List.getElem?_eq_getElem h3] at hq
      exact Option.some.inj hq
    rw [hy]
    exact ⟨rfl, rfl, rfl, rfl, rfl⟩

/-- Witness for C7 at a concrete input: reserving index 0 of a two-element
list leaves the element at index 1 untouched. -/
theorem C7_reserve_unreserve_frame_witness :
    (load_data (reserve_item 0 (some [itemA, itemB])).1)[1]? = some itemB := by
  have h := C7_reserve_unreserve_frame (some [itemA, itemB]) 0 (by decide)
  rw [h.2.2.1 1 (by decide)]
  rfl

/-- Claim C8: every operation preserves insertion order — add appends at
the end, the list after a delete is a sublist of the list before (relative
order of survivors kept), and reserve/unreserve only overwrite one
position in place (`List.set`), never reordering. -/
theorem C8_insertion_order_invariant (file : Option (List Item)) (index : Nat)
    (name link notes image_url now : String) :
    load_data (wishlist_post name link notes image_url now file).1 =
      load_data file ++ [newItem name link notes image_url now] ∧
    (load_data (delete_item index file).1).Sublist (load_data file) ∧
    (∃ x, load_data (reserve_item index file).1 = (load_data file).set index x) ∧
    (∃ x, load_data (unreserve_item index file).1 = (load_data file).set index x) := by
  refine ⟨rfl, ?_, ?_, ?_⟩
  · by_cases h : index < (load_data file).length
    · have hd : load_data (delete_item index file).1 = (load_data file).eraseIdx index := by
        simp [delete_item, h, load_data_save]
      rw [hd]
      exact List.eraseIdx_sublist _ _
    · have hd : delete_item index file = (file, "wishlist") := by
        simp [delete_item, h]
      rw [hd]
  · by_cases h : index < (load_data file).length
    · exact ⟨_, by rw [reserve_item_fst file index h, load_data_some]⟩
    · refine ⟨({} : Item), ?_⟩
      have hd : reserve_item index file = (file, "public_view") := by
        simp [reserve_item, h]
      rw [hd, List.set_eq_of_length_le (Nat.le_of_not_lt h)]
  · by_cases h : index < (load_data file).length
    · exact ⟨_, by rw [unreserve_item_fst file index h, load_data_some]⟩
    · refine ⟨({} : Item), ?_⟩
      have hd : unreserve_item index file = (file, "public_view") := by
        simp [unreserve_item, h]
      rw [hd, List.set_eq_of_length_le (Nat.le_of_not_lt h)]

/-- Claim C9: saving then loading is a round trip, and what `save_data`
writes is independent of whatever the file held before (mode `"w"`
truncates). -/
theorem C9_save_load_roundtrip (items : List Item) (f g : Option (List Item)) :
    load_data (save_data items f) = items ∧ save_data items f = save_data items g :=
  ⟨rfl, rfl⟩

/-- Claim C10: the owner view and the public view apply one and the same
total projection — a row for every stored object, defaults `"-"`, `""`,
`""`, `""`, `null`, `false` for absent keys — and the `brand` key it reads
is never written by the add operation. -/
theorem C10_view_projection (data : List Item)
    (name link notes image_url now : String) :
    wishlist_items data = public_view_items data ∧
    (wishlist_items data).length = data.length ∧
    wishlist_items [({} : Item)] =
      [{ index := 0, name := "-", brand := "", link := "", notes := "",
         image := none, purchased := false }] ∧
    (newItem name link notes image_url now).brand = none := by
  have hlen : (wishlist_items data).length = data.length := by
    simp [wishlist_items, List.enum_length]
  exact ⟨rfl, hlen, rfl, rfl⟩
